import Mathlib

/-!
Verification of the amp editor's preference resolver
(`src/models/application/preferences.rs`) and theme search-select mode
(`src/models/application/modes/theme.rs`), shallowly embedded in Lean 4.

The YAML document tree follows the generic tree consumed by the resolver
(string / integer / boolean / mapping nodes, plus the out-of-band
`BadValue` node returned by failed index lookups).  Machine `usize`
values are modelled as `Nat`, with the `i64 -> usize` cast made explicit
as reduction modulo 2^64.
-/

namespace Amp

/-- The generic YAML document tree, as consumed by the resolver.  Mapping
keys are the strings the resolver indexes with. -/
inductive Yaml where
  | real (s : String)
  | integer (i : Int)
  | string (s : String)
  | boolean (b : Bool)
  | array (xs : List Yaml)
  | hash (entries : List (String × Yaml))
  | null
  | badValue

/-- Key lookup in a YAML mapping's entry list (first match wins). -/
def lookupKey (key : String) : List (String × Yaml) → Option Yaml
  | [] => none
  | (k, v) :: rest => if k = key then some v else lookupKey key rest

/-- Indexing a YAML node by string key: a lookup in a mapping, with a
missing key or a non-mapping node yielding the `badValue` sentinel. -/
def Yaml.index (y : Yaml) (key : String) : Yaml :=
  match y with
  | .hash entries =>
    match lookupKey key entries with
    | some v => v
    | none => .badValue
  | _ => .badValue

def FILE_NAME : String := "config.yml"
def TYPES_KEY : String := "types"
def THEME_KEY : String := "theme"
def TAB_WIDTH_KEY : String := "tab_width"
def LINE_LENGTH_GUIDE_KEY : String := "line_length_guide"
def LINE_WRAPPING_KEY : String := "line_wrapping"
def SOFT_TABS_KEY : String := "soft_tabs"

def THEME_DEFAULT : String := "solarized_dark"
def TAB_WIDTH_DEFAULT : Nat := 2
def LINE_LENGTH_GUIDE_DEFAULT : Nat := 80
def LINE_WRAPPING_DEFAULT : Bool := true
def SOFT_TABS_DEFAULT : Bool := true

/-- The modulus of the 64-bit `usize` machine word. -/
def USIZE_MOD : Nat := 2 ^ 64

/-- The Rust `as usize` cast from a (64-bit) signed integer: two's
complement reinterpretation, i.e. reduction modulo 2^64. -/
def intToUsize (i : Int) : Nat := (i % (USIZE_MOD : Int)).toNat

/-- A file path, abstracted (the path type is a platform collaborator) to
the one question the resolver asks of it: its optional file extension. -/
structure Path where
  extension : Option String

/-- The preference store: the first parsed YAML document, or none. -/
structure Preferences where
  data : Option Yaml

def Preferences.new (data : Option Yaml) : Preferences := ⟨data⟩

def Preferences.theme (p : Preferences) : String :=
  (p.data.bind fun data =>
    match data.index THEME_KEY with
    | .string theme => some theme
    | _ => none
  ).getD THEME_DEFAULT

def Preferences.tab_width (p : Preferences) (path : Option Path) : Nat :=
  (p.data.bind fun data =>
    match path.bind Path.extension with
    | some extension =>
      match ((data.index TYPES_KEY).index extension).index TAB_WIDTH_KEY with
      | .integer tw => some (intToUsize tw)
      | _ =>
        match data.index TAB_WIDTH_KEY with
        | .integer tw => some (intToUsize tw)
        | _ => none
    | none =>
      match data.index TAB_WIDTH_KEY with
      | .integer tw => some (intToUsize tw)
      | _ => none
  ).getD TAB_WIDTH_DEFAULT

def Preferences.line_length_guide (p : Preferences) : Option Nat :=
  p.data.bind fun data =>
    match data.index LINE_LENGTH_GUIDE_KEY with
    | .integer line_length => some (intToUsize line_length)
    | .boolean g => if g then some LINE_LENGTH_GUIDE_DEFAULT else none
    | _ => none

def Preferences.line_wrapping (p : Preferences) : Bool :=
  (p.data.bind fun data =>
    match data.index LINE_WRAPPING_KEY with
    | .boolean wrapping => some wrapping
    | _ => none
  ).getD LINE_WRAPPING_DEFAULT

def Preferences.soft_tabs (p : Preferences) : Bool :=
  (p.data.bind fun data =>
    match data.index SOFT_TABS_KEY with
    | .boolean soft => some soft
    | _ => none
  ).getD SOFT_TABS_DEFAULT

/-- The `format` padding used by `tab_content`: pad the string on the
right with spaces up to the requested width. -/
def formatPad (s : String) (width : Nat) : String :=
  if s.length < width then s ++ String.mk (List.replicate (width - s.length) ' ') else s

def Preferences.tab_content (p : Preferences) : String :=
  if p.soft_tabs then formatPad "" (p.tab_width none) else "\t"

/-- The top-level value a preference store holds at a key (the `badValue`
sentinel when the document is absent, the key missing, or the document
not a mapping). -/
def Preferences.get (p : Preferences) (key : String) : Yaml :=
  match p.data with
  | none => .badValue
  | some data => data.index key

/-- The per-extension tab-width node `types.<ext>.tab_width` of a store. -/
def Preferences.getTypeWidth (p : Preferences) (ext : String) : Yaml :=
  match p.data with
  | none => .badValue
  | some data => ((data.index TYPES_KEY).index ext).index TAB_WIDTH_KEY

/-- Modelled from the spec: the fixed result-count ceiling shared by all
search-select modes.  The constant lives in the modes module, which is
not part of the extracted core; its concrete value is not pinned by the
spec, and no property below depends on it. -/
def MAX_SEARCH_SELECT_RESULTS : Nat := 5

/-- Modelled from the spec: the generic ordered-selection container
`SelectableVec` (`helpers` module, outside the extracted core).  Contract
per the spec: `new` builds the list with the cursor at index 0; cursor
moves clamp at both ends and are no-ops on an empty list; `selection`
returns the element at the cursor, or none when empty; `selected_index`
exposes the cursor, with 0 as the empty-list sentinel. -/
structure SelectableVec (α : Type) where
  set : List α
  selected_index : Nat

def SelectableVec.new {α : Type} (set : List α) : SelectableVec α :=
  ⟨set, 0⟩

def SelectableVec.selection {α : Type} (v : SelectableVec α) : Option α :=
  v.set.get? v.selected_index

def SelectableVec.select_previous {α : Type} (v : SelectableVec α) : SelectableVec α :=
  if v.set.isEmpty then v
  else if 0 < v.selected_index then { v with selected_index := v.selected_index - 1 }
  else v

def SelectableVec.select_next {α : Type} (v : SelectableVec α) : SelectableVec α :=
  if v.set.isEmpty then v
  else if v.selected_index + 1 < v.set.length then
    { v with selected_index := v.selected_index + 1 }
  else v

/-- The matching engine's interface: query, candidates and a result
ceiling, to an ordered list of matched candidates.  The engine itself is
an external collaborator consumed as a pure function. -/
def Matcher : Type := String → List String → Nat → List String

/-- The theme search-select mode's state. -/
structure ThemeMode where
  insert : Bool
  input : String
  themes : List String
  results : SelectableVec String

def ThemeMode.new (themes : List String) : ThemeMode :=
  { insert := true
    input := ""
    themes := themes
    results := SelectableVec.new [] }

/-- `ThemeMode::search`: run the matching engine on the current query
over the full candidate set with the fixed ceiling, strip each match to
its plain candidate value, and replace the results list. -/
def ThemeMode.search (find : Matcher) (m : ThemeMode) : ThemeMode :=
  { m with
    results := SelectableVec.new
      ((find m.input m.themes MAX_SEARCH_SELECT_RESULTS).map id) }

def ThemeMode.query (m : ThemeMode) : String := m.input

def ThemeMode.insert_mode (m : ThemeMode) : Bool := m.insert

def ThemeMode.set_insert_mode (m : ThemeMode) (b : Bool) : ThemeMode :=
  { m with insert := b }

/-- `results()`: the current filtered set, in stored order. -/
def ThemeMode.resultsList (m : ThemeMode) : List String := m.results.set

def ThemeMode.selection (m : ThemeMode) : Option String := m.results.selection

def ThemeMode.selected_index (m : ThemeMode) : Nat := m.results.selected_index

def ThemeMode.select_previous (m : ThemeMode) : ThemeMode :=
  { m with results := m.results.select_previous }

def ThemeMode.select_next (m : ThemeMode) : ThemeMode :=
  { m with results := m.results.select_next }

/-- The mode's fixed status-line label. -/
def ThemeMode.displayLabel (_ : ThemeMode) : String := "THEME"

/-- The integer held by a YAML node, when it is of integer type. -/
def yamlInt : Yaml → Option Int
  | .integer i => some i
  | _ => none

/-- Written from the spec's words for the tab-width resolution order, to
be compared with `Preferences.tab_width`: if a path is given and has a
file extension, try `types.<ext>.tab_width` (must be an integer); else,
or if that is absent, try the global `tab_width` (must be an integer);
else the fixed default.  A present-but-wrong-type value at any level is
treated as absent and the chain continues. -/
def tabWidthSpec (p : Preferences) (path : Option Path) : Nat :=
  let perExtension : Option Int :=
    match path.bind Path.extension with
    | some ext => yamlInt (p.getTypeWidth ext)
    | none => none
  match perExtension with
  | some i => intToUsize i
  | none =>
    match yamlInt (p.get TAB_WIDTH_KEY) with
    | some i => intToUsize i
    | none => TAB_WIDTH_DEFAULT

/-- The cursor invariant of a mode state: on a non-empty results list
the cursor is a valid index. -/
def ThemeModeInv (m : ThemeMode) : Prop :=
  m.resultsList ≠ [] → m.selected_index < m.resultsList.length

theorem formatPad_empty (w : Nat) :
    formatPad "" w = String.mk (List.replicate w ' ') := by
  apply String.ext
  cases w with
  | zero => rfl
  | succ n =>
    have h : ("" : String).length < n + 1 := by simp [String.length_empty]
    simp [formatPad, h, String.data_append]

/-- C1: for every preferences document and optional path, `tab_width`
computes exactly the spec's resolution chain: per-extension integer
override first (when the path has an extension), then the global integer
`tab_width`, then the default 2, with wrong-typed values skipped. -/
theorem claim_C1_tab_width_resolution (p : Preferences) (path : Option Path) :
    p.tab_width path = tabWidthSpec p path := by
  rcases p with ⟨data⟩
  cases data with
  | none =>
    cases hext : path.bind Path.extension <;>
      simp [Preferences.tab_width, tabWidthSpec, Preferences.get, Preferences.getTypeWidth,
        yamlInt, hext]
  | some y =>
    cases hext : path.bind Path.extension with
    | none =>
      cases h : y.index TAB_WIDTH_KEY <;>
        simp [Preferences.tab_width, tabWidthSpec, Preferences.get, Preferences.getTypeWidth,
          yamlInt, hext, h]
    | some ext =>
      cases h1 : ((y.index TYPES_KEY).index ext).index TAB_WIDTH_KEY <;>
        cases h2 : y.index TAB_WIDTH_KEY <;>
          simp [Preferences.tab_width, tabWidthSpec, Preferences.get, Preferences.getTypeWidth,
            yamlInt, hext, h1, h2]

/-- C2: `line_length_guide` is tri-state — an integer value at the key
yields that value (as a usize), boolean true yields the default 80,
and boolean false, any other type, a missing key or an absent document
yield none. -/
theorem claim_C2_line_length_guide_tri_state (p : Preferences) :
    (∀ i : Int, p.get LINE_LENGTH_GUIDE_KEY = .integer i →
      p.line_length_guide = some (intToUsize i)) ∧
    (p.get LINE_LENGTH_GUIDE_KEY = .boolean true →
      p.line_length_guide = some LINE_LENGTH_GUIDE_DEFAULT) ∧
    ((∀ i : Int, p.get LINE_LENGTH_GUIDE_KEY ≠ .integer i) →
      p.get LINE_LENGTH_GUIDE_KEY ≠ .boolean true →
      p.line_length_guide = none) := by
  rcases p with ⟨data⟩
  cases data with
  | none => simp [Preferences.get, Preferences.line_length_guide]
  | some y =>
    cases h : y.index LINE_LENGTH_GUIDE_KEY <;>
      simp [Preferences.get, Preferences.line_length_guide, h]

/-- Witness for C2 at the document `line_length_guide: 100`. -/
theorem claim_C2_witness :
    (Preferences.new (some (.hash [(LINE_LENGTH_GUIDE_KEY, .integer 100)]))).line_length_guide
      = some 100 := by
  have h :=
    (claim_C2_line_length_guide_tri_state
      (Preferences.new (some (.hash [(LINE_LENGTH_GUIDE_KEY, .integer 100)])))).1 100 rfl
  rw [h]
  decide

/-- C3: `tab_content` is a run of exactly `tab_width none` spaces when
soft tabs are enabled, and the single horizontal tab character when they
are disabled; the width is always the no-path resolution. -/
theorem claim_C3_tab_content (p : Preferences) :
    (p.soft_tabs = true →
      p.tab_content = String.mk (List.replicate (p.tab_width none) ' ')) ∧
    (p.soft_tabs = false → p.tab_content = "\t") := by
  constructor <;> intro h <;> simp [Preferences.tab_content, h, formatPad_empty]

/-- Witness for C3 at the document `soft_tabs: true, tab_width: 5`. -/
theorem claim_C3_witness :
    (Preferences.new (some (.hash [(SOFT_TABS_KEY, .boolean true),
        (TAB_WIDTH_KEY, .integer 5)]))).tab_content
      = String.mk (List.replicate 5 ' ') := by
  have h := (claim_C3_tab_content
    (Preferences.new (some (.hash [(SOFT_TABS_KEY, .boolean true),
      (TAB_WIDTH_KEY, .integer 5)])))).1 (by decide)
  rw [h]
  decide

/-- C4: every resolver query is total, and a missing key or wrong-typed
value yields the documented default: theme "solarized_dark", tab width
2, line wrapping true, soft tabs true. -/
theorem claim_C4_queries_default (p : Preferences) (path : Option Path) :
    ((∀ s, p.get THEME_KEY ≠ .string s) → p.theme = THEME_DEFAULT) ∧
    ((∀ i, p.get TAB_WIDTH_KEY ≠ .integer i) →
      (∀ ext i, path.bind Path.extension = some ext → p.getTypeWidth ext ≠ .integer i) →
      p.tab_width path = TAB_WIDTH_DEFAULT) ∧
    ((∀ b, p.get LINE_WRAPPING_KEY ≠ .boolean b) → p.line_wrapping = LINE_WRAPPING_DEFAULT) ∧
    ((∀ b, p.get SOFT_TABS_KEY ≠ .boolean b) → p.soft_tabs = SOFT_TABS_DEFAULT) := by
  rcases p with ⟨data⟩
  cases data with
  | none =>
    refine ⟨fun _ => rfl, fun _ _ => ?_, fun _ => rfl, fun _ => rfl⟩
    simp [Preferences.tab_width]
  | some y =>
    refine ⟨?_, ?_, ?_, ?_⟩
    · intro hs
      cases h : y.index THEME_KEY <;>
        simp_all [Preferences.get, Preferences.theme, h]
    · intro hg hext
      have hg2 : ∀ i, y.index TAB_WIDTH_KEY ≠ .integer i := by
        simpa [Preferences.get] using hg
      cases hpe : path.bind Path.extension with
      | none =>
        cases h : y.index TAB_WIDTH_KEY <;>
          first
            | exact absurd h (hg2 _)
            | simp [Preferences.tab_width, hpe, h]
      | some ext =>
        have hpex : ∀ i, ((y.index TYPES_KEY).index ext).index TAB_WIDTH_KEY ≠ .integer i := by
          intro i
          simpa [Preferences.getTypeWidth] using hext ext i hpe
        cases h1 : ((y.index TYPES_KEY).index ext).index TAB_WIDTH_KEY <;>
          cases h2 : y.index TAB_WIDTH_KEY <;>
            first
              | exact absurd h1 (hpex _)
              | exact absurd h2 (hg2 _)
              | simp [Preferences.tab_width, hpe, h1, h2]
    · intro hb
      cases h : y.index LINE_WRAPPING_KEY <;>
        simp_all [Preferences.get, Preferences.line_wrapping, h]
    · intro hb
      cases h : y.index SOFT_TABS_KEY <;>
        simp_all [Preferences.get, Preferences.soft_tabs, h]

/-- Witness for C4 at the absent document. -/
theorem claim_C4_witness :
    (Preferences.new none).theme = THEME_DEFAULT ∧
    (Preferences.new none).tab_width none = TAB_WIDTH_DEFAULT ∧
    (Preferences.new none).line_wrapping = LINE_WRAPPING_DEFAULT ∧
    (Preferences.new none).soft_tabs = SOFT_TABS_DEFAULT := by
  obtain ⟨h1, h2, h3, h4⟩ := claim_C4_queries_default (Preferences.new none) none
  exact ⟨h1 (by intro s h; cases h), h2 (by intro i h; cases h) (by intro ext i h; cases h),
    h3 (by intro b h; cases h), h4 (by intro b h; cases h)⟩

/-- C10: an integer at `tab_width` (global or per-extension) that is
negative is returned cast to an unsigned 64-bit word — the value modulo
2^64 — and not replaced by the default 2; the wrong-type fallback never
applies to integers. -/
theorem claim_C10_negative_tab_width (p : Preferences) (i : Int)
    (hlo : -(2 ^ 63) ≤ i) (hneg : i < 0) :
    (p.get TAB_WIDTH_KEY = .integer i →
      p.tab_width none = (i % ((2 ^ 64 : Nat) : Int)).toNat ∧
      p.tab_width none ≠ TAB_WIDTH_DEFAULT) ∧
    (∀ ext, p.getTypeWidth ext = .integer i →
      p.tab_width (some ⟨some ext⟩) = (i % ((2 ^ 64 : Nat) : Int)).toNat ∧
      p.tab_width (some ⟨some ext⟩) ≠ TAB_WIDTH_DEFAULT) := by
  have hne : (i % ((2 ^ 64 : Nat) : Int)).toNat ≠ TAB_WIDTH_DEFAULT := by
    unfold TAB_WIDTH_DEFAULT
    omega
  rcases p with ⟨data⟩
  cases data with
  | none =>
    refine ⟨fun h => ?_, fun ext h => ?_⟩ <;> cases h
  | some y =>
    constructor
    · intro h
      refine ⟨?_, ?_⟩ <;>
        simp_all [Preferences.get, Preferences.tab_width, intToUsize, USIZE_MOD]
    · intro ext h
      refine ⟨?_, ?_⟩ <;>
        simp_all [Preferences.getTypeWidth, Preferences.tab_width, intToUsize, USIZE_MOD]

/-- Witness for C10 at the document `tab_width: -1`. -/
theorem claim_C10_witness :
    (Preferences.new (some (.hash [(TAB_WIDTH_KEY, .integer (-1))]))).tab_width none
        = ((-1 : Int) % ((2 ^ 64 : Nat) : Int)).toNat ∧
    (Preferences.new (some (.hash [(TAB_WIDTH_KEY, .integer (-1))]))).tab_width none
        ≠ TAB_WIDTH_DEFAULT :=
  (claim_C10_negative_tab_width
    (Preferences.new (some (.hash [(TAB_WIDTH_KEY, .integer (-1))])))
    (-1) (by norm_num) (by norm_num)).1 rfl

/-- C5: after any `search`, the number of results is at most the fixed
ceiling `MAX_SEARCH_SELECT_RESULTS`, assuming the matching engine honors
its limit argument. -/
theorem claim_C5_results_bounded (find : Matcher) (m : ThemeMode)
    (hfind : (find m.input m.themes MAX_SEARCH_SELECT_RESULTS).length
      ≤ MAX_SEARCH_SELECT_RESULTS) :
    (ThemeMode.search find m).resultsList.length ≤ MAX_SEARCH_SELECT_RESULTS := by
  simpa [ThemeMode.search, ThemeMode.resultsList, SelectableVec.new] using hfind

/-- Witness for C5 with a truncating engine over two candidates. -/
theorem claim_C5_witness :
    (ThemeMode.search (fun _ c n => c.take n)
        (ThemeMode.new ["solarized_dark", "tomorrow_night"])).resultsList.length
      ≤ MAX_SEARCH_SELECT_RESULTS :=
  claim_C5_results_bounded (fun _ c n => c.take n)
    (ThemeMode.new ["solarized_dark", "tomorrow_night"]) (by decide)

/-- C6: `search` replaces the results and resets the selection — on a
non-empty result list the selection is the element at index 0 and the
selected index is 0; on an empty result list the selection is none. -/
theorem claim_C6_search_resets_selection (find : Matcher) (m : ThemeMode) :
    ((ThemeMode.search find m).resultsList ≠ [] →
      (ThemeMode.search find m).selection
          = (ThemeMode.search find m).resultsList.get? 0 ∧
      (ThemeMode.search find m).selected_index = 0) ∧
    ((ThemeMode.search find m).resultsList = [] →
      (ThemeMode.search find m).selection = none) := by
  have hsel : (ThemeMode.search find m).selection
      = (ThemeMode.search find m).resultsList.get? 0 := rfl
  exact ⟨fun _ => ⟨hsel, rfl⟩, fun h => by rw [hsel, h]; rfl⟩

/-- Witness for C6 with a truncating engine over two candidates. -/
theorem claim_C6_witness :
    (ThemeMode.search (fun _ c n => c.take n)
        (ThemeMode.new ["solarized_dark", "tomorrow_night"])).selection
      = (ThemeMode.search (fun _ c n => c.take n)
        (ThemeMode.new ["solarized_dark", "tomorrow_night"])).resultsList.get? 0 ∧
    (ThemeMode.search (fun _ c n => c.take n)
        (ThemeMode.new ["solarized_dark", "tomorrow_night"])).selected_index = 0 :=
  (claim_C6_search_resets_selection (fun _ c n => c.take n)
    (ThemeMode.new ["solarized_dark", "tomorrow_night"])).1 (by decide)

/-- C7: `search` is idempotent — with the query buffer and the candidate
set unchanged (and the engine a pure function), a second `search` leaves
the whole state, results list and cursor included, identical. -/
theorem claim_C7_search_idempotent (find : Matcher) (m : ThemeMode) :
    ThemeMode.search find (ThemeMode.search find m) = ThemeMode.search find m := rfl

/-- C8: cursor movement clamps and never fails — `select_previous` at
index 0 and `select_next` at the last index are no-ops, both are no-ops
on an empty list, and every constructor and operation of the mode
preserves the bounds invariant `0 ≤ cursor < length` on non-empty
lists (no wraparound). -/
theorem claim_C8_cursor_clamps (m : ThemeMode) (themes : List String) (find : Matcher) :
    (m.selected_index = 0 → m.select_previous = m) ∧
    (m.resultsList ≠ [] → m.selected_index = m.resultsList.length - 1 →
      m.select_next = m) ∧
    (m.resultsList = [] → m.select_previous = m ∧ m.select_next = m) ∧
    (ThemeModeInv m → ThemeModeInv m.select_previous ∧ ThemeModeInv m.select_next) ∧
    ThemeModeInv (ThemeMode.new themes) ∧
    ThemeModeInv (ThemeMode.search find m) := by
  rcases m with ⟨ins, inp, th, ⟨s, idx⟩⟩
  simp only [ThemeMode.selected_index, SelectableVec.selected_index, ThemeMode.resultsList,
    ThemeMode.select_previous, ThemeMode.select_next, SelectableVec.select_previous,
    SelectableVec.select_next, ThemeModeInv, ThemeMode.new, ThemeMode.search,
    SelectableVec.new]
  refine ⟨?_, ?_, ?_, ?_, ?_, ?_⟩
  · intro h
    subst h
    split <;> simp
  · intro hne hlast
    have hlen : 0 < s.length := List.length_pos.mpr hne
    have hnot : ¬ (idx + 1 < s.length) := by omega
    simp [hnot]
  · intro h
    subst h
    simp
  · intro hinv
    constructor <;> split <;> try split
    all_goals intro hne
    all_goals simp_all
    all_goals omega
  · intro h
    exact absurd rfl h
  · intro h
    exact List.length_pos.mpr h

/-- Witness for C8: `select_next` at the last index is a no-op on a
concrete two-element state. -/
theorem claim_C8_witness :
    ThemeMode.select_next ⟨true, "q", ["a"], ⟨["x", "y"], 1⟩⟩
      = (⟨true, "q", ["a"], ⟨["x", "y"], 1⟩⟩ : ThemeMode) :=
  (claim_C8_cursor_clamps ⟨true, "q", ["a"], ⟨["x", "y"], 1⟩⟩ []
    (fun _ _ _ => [])).2.1 (by decide) (by decide)

/-- C9: a freshly constructed mode starts in insert mode with an empty
query buffer, an empty results list, and hence no selection. -/
theorem claim_C9_initial_state (themes : List String) :
    (ThemeMode.new themes).insert_mode = true ∧
    (ThemeMode.new themes).query = "" ∧
    (ThemeMode.new themes).resultsList = [] ∧
    (ThemeMode.new themes).selection = none :=
  ⟨rfl, rfl, rfl, rfl⟩

end Amp
